import Mathlib

/-!
Shallow embedding of the guardrail evaluation engine of w3joe/railier
(apps/api/app/api/routes/evaluate.py and apps/api/app/api/routes/ai.py),
together with theorems settling the specification claims about it.

The Python values flowing through block configs and results are dynamic
dicts/lists/strings; they are embedded as a JSON-like `Value` type.  The
`re.search` call and the wall-clock timer are the two external effects of
`execute_block` / `evaluate_guardrail`; they are passed in as explicit
oracles (`ReSearch`, a timer `Nat → Nat` giving the duration of the i-th
block), so that every function here is a pure, executable translation of
the source.
-/

namespace Railier

/-- JSON-like values, mirroring the dynamic Python values that appear in
block results (`None`, booleans, strings, lists, dicts). -/
inductive Value : Type where
  | vNone : Value
  | vBool : Bool → Value
  | vStr : String → Value
  | vList : List Value → Value
  | vDict : List (String × Value) → Value

/-- Python `d.get(k)` on a dict embedded as an association list. -/
def dget (kvs : List (String × Value)) (k : String) : Option Value :=
  (kvs.find? (fun p => p.1 == k)).map (fun p => p.2)

/-- Python `d.get(k, default)` where the caller expects a string.  Every
dict reaching this helper is produced by `execute_block`, whose action
dicts always carry strings under the keys read here, so the non-string
fallback is unreachable on program-produced values. -/
def dgetStr (kvs : List (String × Value)) (k : String) (dflt : String) : String :=
  match dget kvs k with
  | some (Value.vStr s) => s
  | _ => dflt

/-- Does `needle` match at the front of `haystack`? -/
def matchesAt : List Char → List Char → Bool
  | [], _ => true
  | _ :: _, [] => false
  | c :: cs, d :: ds => c == d && matchesAt cs ds

/-- Does `needle` occur somewhere in `haystack`? -/
def hasSub (needle : List Char) : List Char → Bool
  | [] => needle.isEmpty
  | d :: ds => matchesAt needle (d :: ds) || hasSub needle ds

/-- Python `needle in haystack` on strings (substring containment). -/
def strContains (haystack needle : String) : Bool :=
  hasSub needle.toList haystack.toList

/-- Python `s.lower()`, character by character.  All strings the engine
lowers in this development are ASCII, where this agrees with Python. -/
def strLower (s : String) : String :=
  String.mk (s.data.map Char.toLower)

/-- Split a character list at every occurrence of `c`
(Python `s.split(c)` on the underlying characters). -/
def splitOnChar (c : Char) (l : List Char) : List (List Char) :=
  l.foldr (fun ch acc =>
    if ch == c then [] :: acc
    else match acc with
      | [] => [[ch]]
      | a :: as => (ch :: a) :: as) [[]]

/-- Python `int(s)` on a decimal digit string, `none` when `int()` would
raise. -/
def charsToNat (l : List Char) : Option Nat :=
  if l.isEmpty then Option.none
  else l.foldl
    (fun acc c =>
      match acc with
      | some n => if c.isDigit then some (n * 10 + (c.toNat - 48)) else Option.none
      | Option.none => Option.none)
    (some 0)

/-- The `config` dict of a block.  Field defaults are the defaults the
source supplies at each `config.get(key, default)` use site
(evaluate.py lines 34-98). -/
structure Config where
  keywords : List String := []
  matchMode : String := "any"
  allowedRoles : List String := []
  pattern : String := ""
  message : String := "Request blocked."
  warning : String := ""
  approvers : List String := []
  logLevel : String := "info"
  policyId : String := ""
  fields : List String := []
  prompt : String := ""
  deriving DecidableEq, Repr

/-- A block as stored in a guardrail's JSONB `blocks` array: the fields
`execute_block` and the walk read (`id`, `type`, `templateId`, `config`). -/
structure Block where
  id : String := ""
  type : String := ""
  templateId : String := ""
  config : Config := {}
  deriving DecidableEq, Repr

/-- A connection as stored in the JSONB `connections` array (the fields
read by `validate_and_fix_connections`). -/
structure Conn where
  sourceBlockId : String := "block-0"
  targetBlockId : String := "block-0"
  sourceHandle : String := "output"
  targetHandle : String := "input"
  deriving DecidableEq, Repr

/-- A guardrail graph: the `blocks` and `connections` arrays of the
persisted guardrail row. -/
structure Guardrail where
  blocks : List Block := []
  connections : List Conn := []
  deriving DecidableEq, Repr

/-- The execution context built by `evaluate_guardrail` (evaluate.py lines
129-135): the request message and role, the `"_block_inputs"` side-table
and the `"_final_decision"` entry.  The free-form `request.context` spread
is omitted: `execute_block` reads only the four keys modelled here. -/
structure Context where
  message : String := ""
  userRole : String := ""
  blockInputs : List (String × List Bool) := []
  finalDecision : String := "allow"
  deriving DecidableEq, Repr

/-- `context.get("_block_inputs", {}).get(block_id, [])` (evaluate.py
line 61). -/
def blockInputsOf (ctx : Context) (blockId : String) : List Bool :=
  (((ctx.blockInputs.find? (fun p => p.1 == blockId)).map (fun p => p.2)).getD [])

/-- The oracle standing for `re.search(pattern, message, re.IGNORECASE)`:
`Except.error` models the `re.error` exception raised on an invalid
pattern, `Except.ok b` the truthiness of the returned match object. -/
def ReSearch : Type := String → String → Except String Bool

/-- The body of `execute_block`'s `try:` block (evaluate.py lines 22-104),
returning `(activated, result)`.  An `Except.error` carries the message of
the exception raised in the body together with the value the local
`activated` had at the raise point; the only operation in the body that
can raise is the `re.search` call (its `activated = bool(...)` assignment
has not happened yet, so `activated` is still `False` there). -/
def execBody (reSearch : ReSearch) (block : Block) (context : Context) :
    Except (Bool × String) (Bool × Value) :=
  let blockType := block.type
  let config := block.config
  if blockType == "input" then
    -- Input blocks always activate and pass through data
    Except.ok (true, Value.vStr context.message)
  else if blockType == "condition" then
    let templateId := block.templateId
    let message := strLower context.message
    if strContains templateId "contains" then
      -- Check if message contains keywords
      let activated :=
        if config.matchMode == "any" then
          config.keywords.any (fun kw => strContains message (strLower kw))
        else
          config.keywords.all (fun kw => strContains message (strLower kw))
      Except.ok (activated, Value.vBool activated)
    else if strContains templateId "role" then
      -- Check user role
      let allowedRoles := config.allowedRoles.map strLower
      let activated := allowedRoles.contains (strLower context.userRole)
      Except.ok (activated, Value.vBool activated)
    else if strContains templateId "regex" then
      -- Regex match
      if config.pattern != "" then
        match reSearch config.pattern context.message with
        | Except.error e => Except.error (false, e)
        | Except.ok b => Except.ok (b, Value.vBool b)
      else
        Except.ok (false, Value.vBool false)
    else
      Except.ok (false, Value.vNone)
  else if blockType == "logic" then
    let templateId := block.templateId
    -- Logic blocks combine input results, read from the side-table
    let inputs := blockInputsOf context block.id
    let activated :=
      if strContains templateId "and" then
        if inputs.isEmpty then false else inputs.all id
      else if strContains templateId "or" then
        if inputs.isEmpty then false else inputs.any id
      else if strContains templateId "not" then
        !(inputs.headD true)
      else false
    Except.ok (activated, Value.vBool activated)
  else if blockType == "action" then
    let templateId := block.templateId
    -- Actions always activate when reached
    let result : Value :=
      if strContains templateId "block" then
        Value.vDict [("action", Value.vStr "block"), ("message", Value.vStr config.message)]
      else if strContains templateId "allow" then
        Value.vDict [("action", Value.vStr "allow")]
      else if strContains templateId "warn" then
        Value.vDict [("action", Value.vStr "warn"), ("warning", Value.vStr config.warning)]
      else if strContains templateId "approval" then
        Value.vDict [("action", Value.vStr "require_approval"),
                     ("approvers", Value.vList (config.approvers.map Value.vStr))]
      else if strContains templateId "log" then
        Value.vDict [("action", Value.vStr "log"), ("level", Value.vStr config.logLevel)]
      else Value.vNone
    Except.ok (true, result)
  else if blockType == "data" then
    let templateId := block.templateId
    let result : Value :=
      if strContains templateId "policy" then
        Value.vDict [("policyId", Value.vStr config.policyId), ("loaded", Value.vBool true)]
      else if strContains templateId "user" then
        Value.vDict [("userRole", Value.vStr context.userRole),
                     ("fields", Value.vList (config.fields.map Value.vStr))]
      else Value.vNone
    Except.ok (true, result)
  else if blockType == "llm" then
    -- Simulated LLM response
    Except.ok (true, Value.vDict [("evaluated", Value.vBool true),
                                  ("prompt", Value.vStr config.prompt)])
  else if blockType == "output" then
    Except.ok (true, Value.vStr context.finalDecision)
  else
    Except.ok (false, Value.vNone)

/-- `execute_block` (evaluate.py lines 14-110) without the timing
instrumentation: the `(activated, result)` pair.  The `except Exception`
handler converts a raised exception into the result
`{"error": str(e)}`, keeping the value `activated` had at the raise
point. -/
def execute_block (reSearch : ReSearch) (block : Block) (context : Context) :
    Bool × Value :=
  match execBody reSearch block context with
  | Except.ok (a, r) => (a, r)
  | Except.error (a, e) => (a, Value.vDict [("error", Value.vStr e)])

/-- One entry of the execution trace (schema `BlockExecutionResult`). -/
structure BlockExecutionResult where
  blockId : String
  blockType : String
  result : Value
  activated : Bool
  duration : Nat

/-- What one evaluation returns to the caller (the `decision`, `reason`
and `executionTrace` fields of `EvaluationResponse`). -/
structure EvalOutcome where
  trace : List BlockExecutionResult
  decision : String
  reason : String

/-- Prepend a trace entry to an outcome. -/
def consTrace (e : BlockExecutionResult) (o : EvalOutcome) : EvalOutcome :=
  { trace := e :: o.trace, decision := o.decision, reason := o.reason }

/-- One step of the decision aggregation (evaluate.py lines 155-167):
from a block's `(activated, result)` and the pending `(decision, reason)`,
the updated pair plus whether the walk `break`s. -/
def decisionStep (block : Block) (activated : Bool) (resultData : Value)
    (decision reason : String) : String × String × Bool :=
  if block.type == "action" && activated then
    match resultData with
    | Value.vDict kvs =>
      match dget kvs "action" with
      | some (Value.vStr "block") =>
        ("block", dgetStr kvs "message" "Request blocked", true)
      | some (Value.vStr "warn") =>
        ("warn", dgetStr kvs "warning" "Warning issued", false)
      | some (Value.vStr "require_approval") =>
        ("require_approval", "Request requires human approval", false)
      | _ => (decision, reason, false)
    | _ => (decision, reason, false)
  else (decision, reason, false)

/-- The `for block in blocks:` walk of `evaluate_guardrail` (evaluate.py
lines 143-167): execute each block, append its trace entry, fold the
decision, stop on `break`.  `i` is the position of the head block in the
original array; `timer i` stands for the wall-clock duration measured for
the i-th block. -/
def evalWalk (reSearch : ReSearch) (timer : Nat → Nat) (context : Context) :
    List Block → Nat → String → String → EvalOutcome
  | [], _, decision, reason => { trace := [], decision := decision, reason := reason }
  | block :: rest, i, decision, reason =>
    let ar := execute_block reSearch block context
    let entry : BlockExecutionResult :=
      { blockId := block.id, blockType := block.type, result := ar.2,
        activated := ar.1, duration := timer i }
    let step := decisionStep block ar.1 ar.2 decision reason
    if step.2.2 then
      { trace := [entry], decision := step.1, reason := step.2.1 }
    else
      consTrace entry (evalWalk reSearch timer context rest (i + 1) step.1 step.2.1)

/-- The execution context built by `evaluate_guardrail` (evaluate.py lines
129-135) from the request's message and role: the `"_block_inputs"`
side-table starts empty and `"_final_decision"` starts at `"allow"`. -/
def mkContext (message userRole : String) : Context :=
  { message := message, userRole := userRole, blockInputs := [], finalDecision := "allow" }

/-- The evaluation core of `evaluate_guardrail` (evaluate.py lines
128-168), for a guardrail already loaded from the store: build the
context, walk `guardrail.blocks` in array order starting from decision
`"allow"`, and return the trace with the final decision and reason.
The guardrail's `connections` are not read anywhere in this path. -/
def evaluate_guardrail (reSearch : ReSearch) (timer : Nat → Nat)
    (guardrail : Guardrail) (message userRole : String) : EvalOutcome :=
  evalWalk reSearch timer (mkContext message userRole) guardrail.blocks 0
    "allow" "Request passed all guardrail checks"

/-- The numeric part of a `"block-N"` identifier:
`int(s.split("-")[1])` (ai.py lines 107-108).  The Python `int()` raises
on a malformed identifier; all identifiers reaching it in this
development are well-formed `"block-N"` strings, on which the two
functions agree. -/
def blockNum (s : String) : Nat :=
  ((charsToNat ((splitOnChar '-' s.data).getD 1 []))).getD 0

/-- Is block number `n` mentioned as the source or target of some
connection?  Membership in the `connected_blocks` set built by ai.py
lines 104-110. -/
def mentioned (connections : List Conn) (n : Nat) : Bool :=
  connections.any (fun c => blockNum c.sourceBlockId == n || blockNum c.targetBlockId == n)

/-- `sorted(all_blocks - connected_blocks)` (ai.py lines 112-120): the
block numbers `1..len(blocks)` mentioned by no connection, in the
ascending order the Python loop visits them. -/
def orphanList (blocks : List Block) (connections : List Conn) : List Nat :=
  (List.range' 1 blocks.length).filter (fun n => !(mentioned connections n))

/-- The auto-wiring connection appended for an orphaned block
(ai.py lines 123-128). -/
def autoConn (n : Nat) : Conn :=
  { sourceBlockId := "block-" ++ toString (n - 1),
    targetBlockId := "block-" ++ toString n,
    sourceHandle := "output", targetHandle := "input" }

/-- `validate_and_fix_connections` (ai.py lines 97-133): find the blocks
mentioned by no connection and silently append a sequential connection
from the previous block for each of them, in ascending order.  The
membership test `(block_num - 1) in all_blocks` is against the full range
`1..len(blocks)`.  The `print` calls and the effect-free
`connected_blocks.add(block_num)` of the loop are omitted. -/
def validate_and_fix_connections (blocks : List Block) (connections : List Conn) :
    List Block × List Conn :=
  let blockCount := blocks.length
  if blockCount = 0 then (blocks, connections)
  else
    let orphaned := orphanList blocks connections
    if orphaned.isEmpty then (blocks, connections)
    else
      let newConnections := orphaned.foldl
        (fun acc n =>
          if 1 < n ∧ 1 ≤ n - 1 ∧ n - 1 ≤ blockCount then acc ++ [autoConn n] else acc)
        connections
      (blocks, newConnections)

/-- The first component of a trace entry that the audit record keeps
besides timing: block identity, kind, result and activation. -/
def traceKey (e : BlockExecutionResult) : String × String × Value × Bool :=
  (e.blockId, e.blockType, e.result, e.activated)

/-- A regex oracle for runs that never reach a regex block. -/
def dRe : ReSearch := fun _ _ => Except.ok false

/-- A regex oracle standing for `re.search` on an invalid pattern:
`re.compile` raises `re.error("bad pattern")`. -/
def badRe : ReSearch := fun _ _ => Except.error "bad pattern"

/-- A timer oracle reporting zero elapsed milliseconds per block. -/
def dT : Nat → Nat := fun _ => 0

/-- Fixture: the `input-message` block of the salary scenario. -/
def inputBlk : Block := { id := "block-1", type := "input", templateId := "input-message" }

/-- Fixture: `condition-contains` with `keywords=["salary"]`. -/
def containsBlk : Block :=
  { id := "block-2"
    type := "condition"
    templateId := "condition-contains"
    config := { keywords := ["salary"] } }

/-- Fixture: `condition-role` with `allowedRoles=["HR"]`. -/
def roleBlk : Block :=
  { id := "block-3"
    type := "condition"
    templateId := "condition-role"
    config := { allowedRoles := ["HR"] } }

/-- Fixture: the `logic-and` gate of the salary scenario. -/
def andBlk : Block := { id := "block-4", type := "logic", templateId := "logic-and" }

/-- Fixture: `action-block` with message `"Access denied"`. -/
def blockBlk : Block :=
  { id := "block-5"
    type := "action"
    templateId := "action-block"
    config := { message := "Access denied" } }

/-- Fixture: the `action-allow` block of the salary scenario. -/
def allowBlk : Block := { id := "block-6", type := "action", templateId := "action-allow" }

/-- Fixture: the salary-scenario guardrail,
[input → condition-contains → AND ← condition-role → action-block ;
 condition-role false-branch → action-allow]. -/
def salaryG : Guardrail :=
  { blocks := [inputBlk, containsBlk, roleBlk, andBlk, blockBlk, allowBlk]
    connections :=
      [{ sourceBlockId := "block-1", targetBlockId := "block-2", sourceHandle := "output", targetHandle := "input" },
       { sourceBlockId := "block-2", targetBlockId := "block-4", sourceHandle := "true", targetHandle := "input" },
       { sourceBlockId := "block-3", targetBlockId := "block-4", sourceHandle := "true", targetHandle := "input-2" },
       { sourceBlockId := "block-4", targetBlockId := "block-5", sourceHandle := "output", targetHandle := "input" },
       { sourceBlockId := "block-3", targetBlockId := "block-6", sourceHandle := "false", targetHandle := "input" }] }

/-- Fixture: an `action-approval` block. -/
def approvalBlk : Block := { id := "a1", type := "action", templateId := "action-approval" }

/-- Fixture: an `action-warn` block with warning `"careful"`. -/
def warnBlk : Block :=
  { id := "w1"
    type := "action"
    templateId := "action-warn"
    config := { warning := "careful" } }

/-- Fixture: an `output-decision` block. -/
def outBlk : Block := { id := "o1", type := "output", templateId := "output-decision" }

/-- Fixture: an `action-log` block. -/
def logBlk : Block := { id := "l1", type := "action", templateId := "action-log" }

/-- Fixture: `condition-regex` with the invalid pattern `"["`. -/
def regexBlk : Block :=
  { id := "rx"
    type := "condition"
    templateId := "condition-regex"
    config := { pattern := "[" } }

/-- Fixture: a guardrail whose connection set is the two-edge cycle
`block-1 → block-2 → block-1`. -/
def gCyc : Guardrail :=
  { blocks := [inputBlk, allowBlk]
    connections := [{ sourceBlockId := "block-1", targetBlockId := "block-2" },
                    { sourceBlockId := "block-2", targetBlockId := "block-1" }] }

/-- Fixture: a guardrail holding a single action block and no connections
at all, so the block is unreachable from any input block. -/
def gOrphan : Guardrail := { blocks := [warnBlk], connections := [] }

/-- Fixture: the single connection `block-1 → block-2`, leaving `block-3`
orphaned in a three-block list. -/
def c12 : Conn := { sourceBlockId := "block-1", targetBlockId := "block-2" }

/-- Fixture: a trace entry used as the `getD` fallback. -/
def dfltEntry : BlockExecutionResult :=
  { blockId := "", blockType := "", result := Value.vNone, activated := false, duration := 0 }

/-- Fixture: a free-standing `logic-and` gate named `g`. -/
def andG : Block := { id := "g", type := "logic", templateId := "logic-and" }

/-- Fixture: a free-standing `logic-or` gate named `g`. -/
def orG : Block := { id := "g", type := "logic", templateId := "logic-or" }

/-- Fixture: a free-standing `logic-not` gate named `g`. -/
def notG : Block := { id := "g", type := "logic", templateId := "logic-not" }

/-- Fixture: a context whose side-table resolves gate `g` to the inputs
`(true, false)`. -/
def ctxTF : Context := { blockInputs := [("g", [true, false])] }

/-- Fixture: a context whose side-table resolves gate `g` to the single
input `true`. -/
def ctxT : Context := { blockInputs := [("g", [true])] }

/-- Is there a connection from block `a` to block `b`?  Modelled from the
spec (§4.2 builds adjacency from Connections); the repository has no
graph-validation code, so the edge relation follows the spec's words. -/
def isEdge (g : Guardrail) (a b : String) : Bool :=
  g.connections.any (fun c => c.sourceBlockId == a && c.targetBlockId == b)

/-- Is `a, vs..., b` a directed path through the connection set?
Modelled from the spec (§4.2: cycles in the adjacency built from
Connections); `isPath g a vs a = true` for some `vs` exhibits a directed
cycle through `a`. -/
def isPath (g : Guardrail) : String → List String → String → Bool
  | a, [], b => isEdge g a b
  | a, v :: vs, b => isEdge g a v && isPath g v vs b

/-! ### Helper lemmas shared by the claim theorems -/

theorem execute_block_eq_of_ok (re : ReSearch) (b : Block) (ctx : Context)
    (a : Bool) (r : Value) (h : execBody re b ctx = Except.ok (a, r)) :
    execute_block re b ctx = (a, r) := by
  simp [execute_block, h]

theorem execBody_action_blockT (re : ReSearch) (b : Block) (ctx : Context)
    (hty : b.type = "action") (h1 : strContains b.templateId "block" = true) :
    execBody re b ctx = Except.ok (true,
      Value.vDict [("action", Value.vStr "block"),
                   ("message", Value.vStr b.config.message)]) := by
  simp [execBody, hty, h1]

theorem execBody_action_allowT (re : ReSearch) (b : Block) (ctx : Context)
    (hty : b.type = "action")
    (h1 : strContains b.templateId "block" = false)
    (h2 : strContains b.templateId "allow" = true) :
    execBody re b ctx = Except.ok (true, Value.vDict [("action", Value.vStr "allow")]) := by
  simp [execBody, hty, h1, h2]

theorem execBody_action_warnT (re : ReSearch) (b : Block) (ctx : Context)
    (hty : b.type = "action")
    (h1 : strContains b.templateId "block" = false)
    (h2 : strContains b.templateId "allow" = false)
    (h3 : strContains b.templateId "warn" = true) :
    execBody re b ctx = Except.ok (true,
      Value.vDict [("action", Value.vStr "warn"),
                   ("warning", Value.vStr b.config.warning)]) := by
  simp [execBody, hty, h1, h2, h3]

theorem execBody_action_approvalT (re : ReSearch) (b : Block) (ctx : Context)
    (hty : b.type = "action")
    (h1 : strContains b.templateId "block" = false)
    (h2 : strContains b.templateId "allow" = false)
    (h3 : strContains b.templateId "warn" = false)
    (h4 : strContains b.templateId "approval" = true) :
    execBody re b ctx = Except.ok (true,
      Value.vDict [("action", Value.vStr "require_approval"),
                   ("approvers", Value.vList (b.config.approvers.map Value.vStr))]) := by
  simp [execBody, hty, h1, h2, h3, h4]

theorem execBody_action_logT (re : ReSearch) (b : Block) (ctx : Context)
    (hty : b.type = "action")
    (h1 : strContains b.templateId "block" = false)
    (h2 : strContains b.templateId "allow" = false)
    (h3 : strContains b.templateId "warn" = false)
    (h4 : strContains b.templateId "approval" = false)
    (h5 : strContains b.templateId "log" = true) :
    execBody re b ctx = Except.ok (true,
      Value.vDict [("action", Value.vStr "log"),
                   ("level", Value.vStr b.config.logLevel)]) := by
  simp [execBody, hty, h1, h2, h3, h4, h5]

theorem decisionStep_block_dict (b : Block) (hty : b.type = "action")
    (m : String) (d r : String) :
    decisionStep b true
        (Value.vDict [("action", Value.vStr "block"), ("message", Value.vStr m)]) d r
      = ("block", m, true) := by
  simp [decisionStep, hty, dget, dgetStr]

theorem decisionStep_warn_dict (b : Block) (hty : b.type = "action")
    (w : String) (d r : String) :
    decisionStep b true
        (Value.vDict [("action", Value.vStr "warn"), ("warning", Value.vStr w)]) d r
      = ("warn", w, false) := by
  simp [decisionStep, hty, dget, dgetStr]

theorem decisionStep_approval_dict (b : Block) (hty : b.type = "action")
    (ap : List Value) (d r : String) :
    decisionStep b true
        (Value.vDict [("action", Value.vStr "require_approval"), ("approvers", Value.vList ap)]) d r
      = ("require_approval", "Request requires human approval", false) := by
  simp [decisionStep, hty, dget, dgetStr]

theorem decisionStep_allow_dict (b : Block) (hty : b.type = "action") (d r : String) :
    decisionStep b true (Value.vDict [("action", Value.vStr "allow")]) d r
      = (d, r, false) := by
  simp [decisionStep, hty, dget, dgetStr]

theorem decisionStep_log_dict (b : Block) (hty : b.type = "action")
    (lv : String) (d r : String) :
    decisionStep b true
        (Value.vDict [("action", Value.vStr "log"), ("level", Value.vStr lv)]) d r
      = (d, r, false) := by
  simp [decisionStep, hty, dget, dgetStr]

theorem execute_block_logic_empty (re : ReSearch) (b : Block) (ctx : Context)
    (hty : b.type = "logic") (hctx : ctx.blockInputs = []) :
    (execute_block re b ctx).1 = false := by
  simp [execute_block, execBody, hty, blockInputsOf, hctx]

theorem logic_entries_inactive (re : ReSearch) (t : Nat → Nat) (ctx : Context)
    (hctx : ctx.blockInputs = []) :
    ∀ (blocks : List Block) (i : Nat) (d r : String),
      ∀ e ∈ (evalWalk re t ctx blocks i d r).trace,
        e.blockType = "logic" → e.activated = false := by
  intro blocks
  induction blocks with
  | nil => intro i d r e he; simp [evalWalk] at he
  | cons b rest ih =>
    intro i d r e he hlog
    by_cases hbr :
        (decisionStep b (execute_block re b ctx).1 (execute_block re b ctx).2 d r).2.2 = true
    · simp only [evalWalk, hbr, if_true] at he
      simp only [List.mem_singleton] at he
      subst he
      exact execute_block_logic_empty re b ctx hlog hctx
    · simp only [evalWalk, hbr, if_false, Bool.false_eq_true, consTrace, List.mem_cons] at he
      rcases he with he | he
      · subst he
        exact execute_block_logic_empty re b ctx hlog hctx
      · exact ih (i + 1) _ _ e he hlog

theorem execute_block_output (re : ReSearch) (b : Block) (ctx : Context)
    (hty : b.type = "output") :
    execute_block re b ctx = (true, Value.vStr ctx.finalDecision) := by
  simp [execute_block, execBody, hty]

theorem output_entries_allow (re : ReSearch) (t : Nat → Nat) (ctx : Context)
    (hctx : ctx.finalDecision = "allow") :
    ∀ (blocks : List Block) (i : Nat) (d r : String),
      ∀ e ∈ (evalWalk re t ctx blocks i d r).trace,
        e.blockType = "output" → e.activated = true ∧ e.result = Value.vStr "allow" := by
  intro blocks
  induction blocks with
  | nil => intro i d r e he; simp [evalWalk] at he
  | cons b rest ih =>
    intro i d r e he hout
    by_cases hbr :
        (decisionStep b (execute_block re b ctx).1 (execute_block re b ctx).2 d r).2.2 = true
    · simp only [evalWalk, hbr, if_true] at he
      simp only [List.mem_singleton] at he
      subst he
      have hexec := execute_block_output re b ctx hout
      constructor
      · show (execute_block re b ctx).1 = true
        rw [hexec]
      · show (execute_block re b ctx).2 = Value.vStr "allow"
        rw [hexec, hctx]
    · simp only [evalWalk, hbr, if_false, Bool.false_eq_true, consTrace, List.mem_cons] at he
      rcases he with he | he
      · subst he
        have hexec := execute_block_output re b ctx hout
        constructor
        · show (execute_block re b ctx).1 = true
          rw [hexec]
        · show (execute_block re b ctx).2 = Value.vStr "allow"
          rw [hexec, hctx]
      · exact ih (i + 1) _ _ e he hout

theorem evalWalk_output_step (re : ReSearch) (t : Nat → Nat) (ctx : Context)
    (b : Block) (rest : List Block) (i : Nat) (d r : String)
    (hty : b.type = "output") :
    evalWalk re t ctx (b :: rest) i d r =
      consTrace ⟨b.id, b.type, Value.vStr ctx.finalDecision, true, t i⟩
        (evalWalk re t ctx rest (i + 1) d r) := by
  have he := execute_block_output re b ctx hty
  simp [evalWalk, he, decisionStep, hty]

/-! ### Claim theorems -/

/-- Claim C3: when a logic block's resolved inputs in the
`"_block_inputs"` side-table are `inputs`, `logic-and` activates exactly
when all of the (nonempty) inputs are true — the single one if only one
exists — `logic-or` activates exactly when at least one is true, and
`logic-not` negates its single input; in particular AND on `(true, false)`
gives `false`, OR on `(true, false)` gives `true` and NOT on `true` gives
`false` (see the witness). -/
theorem logic_gate_truth_tables (re : ReSearch) (ctx : Context) (gid : String)
    (cfg : Config) (inputs : List Bool)
    (h : blockInputsOf ctx gid = inputs) :
    (inputs ≠ [] →
      (execute_block re { id := gid, type := "logic", templateId := "logic-and", config := cfg }
          ctx).1
        = inputs.all id)
  ∧ (inputs ≠ [] →
      (execute_block re { id := gid, type := "logic", templateId := "logic-or", config := cfg }
          ctx).1
        = inputs.any id)
  ∧ (∀ x : Bool, inputs = [x] →
      (execute_block re { id := gid, type := "logic", templateId := "logic-not", config := cfg }
          ctx).1
        = !x) := by
  have hAndA : strContains "logic-and" "and" = true := by decide
  have hOrA : strContains "logic-or" "and" = false := by decide
  have hOrO : strContains "logic-or" "or" = true := by decide
  have hNotA : strContains "logic-not" "and" = false := by decide
  have hNotO : strContains "logic-not" "or" = false := by decide
  have hNotN : strContains "logic-not" "not" = true := by decide
  refine ⟨?_, ?_, ?_⟩
  · intro hne
    simp [execute_block, execBody, h, hAndA, hne]
  · intro hne
    simp [execute_block, execBody, h, hOrA, hOrO, hne]
  · intro x hx
    simp [execute_block, execBody, h, hx, hNotA, hNotO, hNotN]

/-- Claim C3, witness: the truth tables at concrete inputs — AND over
`[true, false]` is false, OR over `[true, false]` is true, NOT over
`[true]` is false. -/
theorem logic_gate_truth_tables_witness :
    (execute_block dRe andG ctxTF).1 = false
  ∧ (execute_block dRe orG ctxTF).1 = true
  ∧ (execute_block dRe notG ctxT).1 = false :=
  ⟨((logic_gate_truth_tables dRe ctxTF "g" {} [true, false] rfl).1 (by decide)).trans (by decide),
   ((logic_gate_truth_tables dRe ctxTF "g" {} [true, false] rfl).2.1 (by decide)).trans (by decide),
   ((logic_gate_truth_tables dRe ctxT "g" {} [true] rfl).2.2 true rfl).trans (by decide)⟩

/-- Claim C4: the `"_block_inputs"` side-table of the context built by
`evaluate_guardrail` is the empty mapping, the walk never writes to the
context (the embedded walk passes one fixed context to every
`execute_block` call, as the source does — no assignment into `context`
occurs in the loop), and consequently every logic-typed trace entry of
every evaluation has `activated = false`: logic gates never actually
combine upstream results. -/
theorem block_inputs_stay_empty (re : ReSearch) (t : Nat → Nat) (g : Guardrail)
    (message userRole : String) :
    (mkContext message userRole).blockInputs = []
  ∧ ∀ e ∈ (evaluate_guardrail re t g message userRole).trace,
      e.blockType = "logic" → e.activated = false :=
  ⟨rfl, logic_entries_inactive re t (mkContext message userRole) rfl g.blocks 0 _ _⟩

/-- Claim C4, witness: in the one-block graph holding the `logic-and`
gate, the gate's trace entry reports `activated = false`. -/
theorem block_inputs_stay_empty_witness :
    ((evaluate_guardrail dRe dT { blocks := [andG] } "m" "r").trace.headD dfltEntry).activated
      = false :=
  (block_inputs_stay_empty dRe dT { blocks := [andG] } "m" "r").2
    ((evaluate_guardrail dRe dT { blocks := [andG] } "m" "r").trace.headD dfltEntry)
    (List.mem_cons_self _ _) rfl

/-- Claim C5 (amended): an output-kind block always activates and never
alters the pending decision or terminates the walk, but it does not emit
the Decision Aggregator's running decision: it emits the context's
`"_final_decision"` entry, which is initialized to `"allow"` and never
updated during the walk (the running decision lives in a local variable),
so every output-typed trace entry carries the constant result `"allow"`
even when an action already fired.  (The original claim's running-decision
clause is what the counterexample refutes; always-activates and
never-alters-the-decision hold as claimed.) -/
theorem output_block_amended :
    (∀ (re : ReSearch) (t : Nat → Nat) (g : Guardrail) (message userRole : String),
       ∀ e ∈ (evaluate_guardrail re t g message userRole).trace,
         e.blockType = "output" → e.activated = true ∧ e.result = Value.vStr "allow")
  ∧ (∀ (re : ReSearch) (t : Nat → Nat) (ctx : Context) (b : Block) (rest : List Block)
       (i : Nat) (d r : String), b.type = "output" →
         evalWalk re t ctx (b :: rest) i d r =
           consTrace ⟨b.id, b.type, Value.vStr ctx.finalDecision, true, t i⟩
             (evalWalk re t ctx rest (i + 1) d r)) :=
  ⟨fun re t g message userRole =>
     output_entries_allow re t (mkContext message userRole) rfl g.blocks 0 _ _,
   fun re t ctx b rest i d r hty => evalWalk_output_step re t ctx b rest i d r hty⟩

/-- Claim C5, counterexample: in the graph [action-warn, output-decision]
the running decision at the output block is `"warn"` (the final decision
is `"warn"`), yet the output block's trace entry carries the result
`"allow"` — the claim states the output block emits the running final
decision at that point of the walk. -/
theorem output_emits_initial_allow :
    (evaluate_guardrail dRe dT { blocks := [warnBlk, outBlk] } "m" "r").decision = "warn"
  ∧ ((evaluate_guardrail dRe dT { blocks := [warnBlk, outBlk] } "m" "r").trace.getD 1
        dfltEntry).blockType = "output"
  ∧ ((evaluate_guardrail dRe dT { blocks := [warnBlk, outBlk] } "m" "r").trace.getD 1
        dfltEntry).result = Value.vStr "allow" :=
  ⟨rfl, rfl, rfl⟩

/-- Claim C5, witness: the amended output semantics at a concrete input —
the output entry of the [action-warn, output-decision] run is activated
with result `"allow"`, and a one-block output walk continues with the
pending pair untouched. -/
theorem output_block_amended_witness :
    (((evaluate_guardrail dRe dT { blocks := [warnBlk, outBlk] } "m" "r").trace.getD 1
         dfltEntry).activated = true
      ∧ ((evaluate_guardrail dRe dT { blocks := [warnBlk, outBlk] } "m" "r").trace.getD 1
         dfltEntry).result = Value.vStr "allow")
  ∧ evalWalk dRe dT (mkContext "m" "r") [outBlk] 0 "warn" "w" =
      consTrace ⟨"o1", "output", Value.vStr "allow", true, 0⟩
        (evalWalk dRe dT (mkContext "m" "r") [] 1 "warn" "w") :=
  ⟨output_block_amended.1 dRe dT { blocks := [warnBlk, outBlk] } "m" "r"
     ((evaluate_guardrail dRe dT { blocks := [warnBlk, outBlk] } "m" "r").trace.getD 1 dfltEntry)
     (List.mem_cons_of_mem _ (List.mem_cons_self _ _)) rfl,
   output_block_amended.2 dRe dT (mkContext "m" "r") outBlk [] 0 "warn" "w" rfl⟩

/-- Claim C1 (amended): while folding action results in execution order,
an activated action-block immediately terminates processing with final
decision `"block"` and the configured message as reason; an activated
action-approval sets the pending decision to `"require_approval"` and does
not terminate the walk; an activated action-warn sets the pending decision
to `"warn"` regardless of the pending value — in particular it downgrades
a pending `"require_approval"`; activated allow/log actions never change
or terminate the decision.  (The original claim's clause that warn changes
the decision only when the pending decision is `"allow"` is what the
counterexample refutes; the rest is as claimed.) -/
theorem decision_precedence_amended (re : ReSearch) (t : Nat → Nat) (ctx : Context)
    (b : Block) (rest : List Block) (i : Nat) (d r : String)
    (hty : b.type = "action") :
    (strContains b.templateId "block" = true →
      evalWalk re t ctx (b :: rest) i d r =
        { trace := [⟨b.id, b.type,
            Value.vDict [("action", Value.vStr "block"), ("message", Value.vStr b.config.message)],
            true, t i⟩]
          decision := "block"
          reason := b.config.message })
  ∧ (strContains b.templateId "block" = false →
     strContains b.templateId "allow" = false →
     strContains b.templateId "warn" = true →
      evalWalk re t ctx (b :: rest) i d r =
        consTrace ⟨b.id, b.type,
            Value.vDict [("action", Value.vStr "warn"), ("warning", Value.vStr b.config.warning)],
            true, t i⟩
          (evalWalk re t ctx rest (i + 1) "warn" b.config.warning))
  ∧ (strContains b.templateId "block" = false →
     strContains b.templateId "allow" = false →
     strContains b.templateId "warn" = false →
     strContains b.templateId "approval" = true →
      evalWalk re t ctx (b :: rest) i d r =
        consTrace ⟨b.id, b.type,
            Value.vDict [("action", Value.vStr "require_approval"),
                         ("approvers", Value.vList (b.config.approvers.map Value.vStr))],
            true, t i⟩
          (evalWalk re t ctx rest (i + 1) "require_approval" "Request requires human approval"))
  ∧ (strContains b.templateId "block" = false →
     strContains b.templateId "allow" = true →
      evalWalk re t ctx (b :: rest) i d r =
        consTrace ⟨b.id, b.type, Value.vDict [("action", Value.vStr "allow")], true, t i⟩
          (evalWalk re t ctx rest (i + 1) d r))
  ∧ (strContains b.templateId "block" = false →
     strContains b.templateId "allow" = false →
     strContains b.templateId "warn" = false →
     strContains b.templateId "approval" = false →
     strContains b.templateId "log" = true →
      evalWalk re t ctx (b :: rest) i d r =
        consTrace ⟨b.id, b.type,
            Value.vDict [("action", Value.vStr "log"), ("level", Value.vStr b.config.logLevel)],
            true, t i⟩
          (evalWalk re t ctx rest (i + 1) d r)) := by
  refine ⟨?_, ?_, ?_, ?_, ?_⟩
  · intro h1
    have he := execute_block_eq_of_ok re b ctx _ _ (execBody_action_blockT re b ctx hty h1)
    simp [evalWalk, he, decisionStep_block_dict b hty]
  · intro h1 h2 h3
    have he := execute_block_eq_of_ok re b ctx _ _ (execBody_action_warnT re b ctx hty h1 h2 h3)
    simp [evalWalk, he, decisionStep_warn_dict b hty]
  · intro h1 h2 h3 h4
    have he := execute_block_eq_of_ok re b ctx _ _
      (execBody_action_approvalT re b ctx hty h1 h2 h3 h4)
    simp [evalWalk, he, decisionStep_approval_dict b hty]
  · intro h1 h2
    have he := execute_block_eq_of_ok re b ctx _ _ (execBody_action_allowT re b ctx hty h1 h2)
    simp [evalWalk, he, decisionStep_allow_dict b hty]
  · intro h1 h2 h3 h4 h5
    have he := execute_block_eq_of_ok re b ctx _ _
      (execBody_action_logT re b ctx hty h1 h2 h3 h4 h5)
    simp [evalWalk, he, decisionStep_log_dict b hty]

/-- Claim C1, counterexample: on the two-block guardrail
[action-approval, action-warn] the pending decision after the first block
is `"require_approval"` (second conjunct), yet the activated warn block
overwrites it and the final decision is `"warn"` — the claim states an
activated action-warn never downgrades a pending `"require_approval"`. -/
theorem warn_downgrades_require_approval :
    (evaluate_guardrail dRe dT { blocks := [approvalBlk, warnBlk] } "m" "r").decision = "warn"
  ∧ (evaluate_guardrail dRe dT { blocks := [approvalBlk] } "m" "r").decision
      = "require_approval" :=
  ⟨rfl, rfl⟩

/-- Claim C1, witness: the amended precedence theorem applied to concrete
action blocks — a block action terminates the walk with its configured
message; a warn action overwrites a pending `"require_approval"`; an
approval action sets `"require_approval"`; an allow action leaves the
pending pair untouched; a log action leaves the pending pair untouched. -/
theorem decision_precedence_amended_witness :
    evalWalk dRe dT (mkContext "m" "r") [blockBlk] 0 "allow" "ok" =
      { trace := [⟨"block-5", "action",
          Value.vDict [("action", Value.vStr "block"), ("message", Value.vStr "Access denied")],
          true, 0⟩]
        decision := "block"
        reason := "Access denied" }
  ∧ evalWalk dRe dT (mkContext "m" "r") [warnBlk] 0 "require_approval" "p" =
      consTrace ⟨"w1", "action",
          Value.vDict [("action", Value.vStr "warn"), ("warning", Value.vStr "careful")],
          true, 0⟩
        (evalWalk dRe dT (mkContext "m" "r") [] 1 "warn" "careful")
  ∧ evalWalk dRe dT (mkContext "m" "r") [approvalBlk] 0 "allow" "ok" =
      consTrace ⟨"a1", "action",
          Value.vDict [("action", Value.vStr "require_approval"), ("approvers", Value.vList [])],
          true, 0⟩
        (evalWalk dRe dT (mkContext "m" "r") [] 1 "require_approval"
          "Request requires human approval")
  ∧ evalWalk dRe dT (mkContext "m" "r") [allowBlk] 0 "warn" "w" =
      consTrace ⟨"block-6", "action", Value.vDict [("action", Value.vStr "allow")], true, 0⟩
        (evalWalk dRe dT (mkContext "m" "r") [] 1 "warn" "w")
  ∧ evalWalk dRe dT (mkContext "m" "r") [logBlk] 0 "warn" "w" =
      consTrace ⟨"l1", "action",
          Value.vDict [("action", Value.vStr "log"), ("level", Value.vStr "info")], true, 0⟩
        (evalWalk dRe dT (mkContext "m" "r") [] 1 "warn" "w") :=
  ⟨(decision_precedence_amended dRe dT (mkContext "m" "r") blockBlk [] 0 "allow" "ok" rfl).1 rfl,
   (decision_precedence_amended dRe dT (mkContext "m" "r") warnBlk [] 0 "require_approval" "p"
      rfl).2.1 rfl rfl rfl,
   (decision_precedence_amended dRe dT (mkContext "m" "r") approvalBlk [] 0 "allow" "ok"
      rfl).2.2.1 rfl rfl rfl rfl,
   (decision_precedence_amended dRe dT (mkContext "m" "r") allowBlk [] 0 "warn" "w"
      rfl).2.2.2.1 rfl rfl,
   (decision_precedence_amended dRe dT (mkContext "m" "r") logBlk [] 0 "warn" "w"
      rfl).2.2.2.2 rfl rfl rfl rfl rfl⟩

/-- Claim C2: evaluating the salary guardrail on the message
`"what is John\x27s salary"` (the escape spells the possessive apostrophe)
with role `"employee"`.  The code walks every block of the array in order
and ignores the connection set, so the action-block is reached, activates,
and terminates the walk: final decision `"block"` with reason
`"Access denied"`, the condition-contains entry activated, the
condition-role and logic-and entries not activated, and the action-allow
block never executed (five trace entries, not six).  The claim instead
expects the action-block not to be reached and the final decision to be
`"allow"` — this theorem evaluates the code at that failing input. -/
theorem salary_scenario_blocks :
    (evaluate_guardrail dRe dT salaryG "what is John\x27s salary" "employee").decision = "block"
  ∧ (evaluate_guardrail dRe dT salaryG "what is John\x27s salary" "employee").reason
      = "Access denied"
  ∧ (evaluate_guardrail dRe dT salaryG "what is John\x27s salary" "employee").trace.map
        (fun e => (e.blockId, e.activated))
      = [("block-1", true), ("block-2", true), ("block-3", false),
         ("block-4", false), ("block-5", true)] :=
  ⟨rfl, rfl, by decide⟩

/-- Claim C7 (amended): the engine performs no graph validation at all —
`evaluate_guardrail` never inspects the connection set, so two guardrails
with the same block list and arbitrary (in particular cyclic) connection
sets evaluate identically; a cyclic graph is never rejected and always
runs. -/
theorem connections_ignored_amended (re : ReSearch) (t : Nat → Nat)
    (blocks : List Block) (conns1 conns2 : List Conn) (message userRole : String) :
    evaluate_guardrail re t { blocks := blocks, connections := conns1 } message userRole
      = evaluate_guardrail re t { blocks := blocks, connections := conns2 } message userRole :=
  rfl

/-- Claim C7, counterexample: the connection set of `gCyc` contains the
directed cycle block-1 → block-2 → block-1, yet block evaluation runs to
completion over the whole block list and returns a decision — no
`CyclicGraphError`, evaluation is started and finishes. -/
theorem cyclic_graph_still_evaluates :
    isPath gCyc "block-1" ["block-2"] "block-1" = true
  ∧ (evaluate_guardrail dRe dT gCyc "m" "r").trace.length = 2
  ∧ (evaluate_guardrail dRe dT gCyc "m" "r").decision = "allow" :=
  ⟨rfl, rfl, rfl⟩

theorem evalWalk_timer_inv (re : ReSearch) (t1 t2 : Nat → Nat) (ctx : Context) :
    ∀ (blocks : List Block) (i : Nat) (d r : String),
      (evalWalk re t1 ctx blocks i d r).trace.map traceKey
          = (evalWalk re t2 ctx blocks i d r).trace.map traceKey
      ∧ (evalWalk re t1 ctx blocks i d r).decision = (evalWalk re t2 ctx blocks i d r).decision
      ∧ (evalWalk re t1 ctx blocks i d r).reason = (evalWalk re t2 ctx blocks i d r).reason := by
  intro blocks
  induction blocks with
  | nil => intro i d r; exact ⟨rfl, rfl, rfl⟩
  | cons b rest ih =>
    intro i d r
    simp only [evalWalk]
    by_cases hbr :
        (decisionStep b (execute_block re b ctx).1 (execute_block re b ctx).2 d r).2.2 = true
    · simp [hbr, traceKey]
    · simp only [Bool.not_eq_true] at hbr
      have h := ih (i + 1)
        (decisionStep b (execute_block re b ctx).1 (execute_block re b ctx).2 d r).1
        (decisionStep b (execute_block re b ctx).1 (execute_block re b ctx).2 d r).2.1
      simp [hbr, consTrace, traceKey, h.1, h.2.1, h.2.2]

theorem mem_autoWire_acc (L : Nat) (l : List Nat) (acc : List Conn) (c : Conn)
    (hc : c ∈ acc) :
    c ∈ l.foldl
        (fun acc n => if 1 < n ∧ 1 ≤ n - 1 ∧ n - 1 ≤ L then acc ++ [autoConn n] else acc)
        acc := by
  induction l generalizing acc with
  | nil => simpa using hc
  | cons m ms ih =>
    simp only [List.foldl_cons]
    apply ih
    by_cases hm : 1 < m ∧ 1 ≤ m - 1 ∧ m - 1 ≤ L
    · simp only [hm, if_true]
      exact List.mem_append_left _ hc
    · simp only [hm, if_false]
      exact hc

theorem mem_autoWire_of_mem_list (L : Nat) (l : List Nat) (acc : List Conn) (n : Nat)
    (hn : n ∈ l) (hP : 1 < n ∧ 1 ≤ n - 1 ∧ n - 1 ≤ L) :
    autoConn n ∈ l.foldl
        (fun acc n => if 1 < n ∧ 1 ≤ n - 1 ∧ n - 1 ≤ L then acc ++ [autoConn n] else acc)
        acc := by
  induction l generalizing acc with
  | nil => cases hn
  | cons m ms ih =>
    rcases List.mem_cons.mp hn with h | h
    · subst h
      simp only [List.foldl_cons, hP, if_true]
      apply mem_autoWire_acc
      exact List.mem_append_right _ (List.mem_cons_self _ _)
    · simp only [List.foldl_cons]
      exact ih _ h

/-- Claim C6 (amended): the engine does not exclude unreachable blocks and
does auto-wire orphans.  First: the array walk executes every block of the
list regardless of the connection set, so an action block with no
connections at all — unreachable from any input block — still activates
and sets the decision (here an orphaned action-warn yields `"warn"`).
Second: `validate_and_fix_connections` silently auto-wires every orphaned
block `n > 1` of the list by appending the sequential connection
`block-(n-1) → block-n`; no validation report is produced (the function
only prints a console message and returns the augmented connection
list). -/
theorem orphan_policy_amended :
    (∀ (re : ReSearch) (t : Nat → Nat) (message userRole : String) (b : Block),
       b.type = "action" →
       strContains b.templateId "block" = false →
       strContains b.templateId "allow" = false →
       strContains b.templateId "warn" = true →
       (evaluate_guardrail re t { blocks := [b], connections := [] } message userRole).decision
         = "warn")
  ∧ (∀ (blocks : List Block) (conns : List Conn) (n : Nat),
       n ∈ orphanList blocks conns → 1 < n →
       autoConn n ∈ (validate_and_fix_connections blocks conns).2) := by
  constructor
  · intro re t message userRole b hty h1 h2 h3
    have he := execute_block_eq_of_ok re b (mkContext message userRole) _ _
      (execBody_action_warnT re b (mkContext message userRole) hty h1 h2 h3)
    simp [evaluate_guardrail, evalWalk, he, decisionStep_warn_dict b hty, consTrace]
  · intro blocks conns n hn h1n
    have hf := List.mem_filter.mp hn
    have hr := List.mem_range'_1.mp hf.1
    have hlen : ¬ blocks.length = 0 := by omega
    have hne : orphanList blocks conns ≠ [] := List.ne_nil_of_mem hn
    have hemp : (orphanList blocks conns).isEmpty = false := by
      simp [List.isEmpty_iff, hne]
    have hP : 1 < n ∧ 1 ≤ n - 1 ∧ n - 1 ≤ blocks.length := by omega
    simp only [validate_and_fix_connections, hlen, if_false, hemp, Bool.false_eq_true]
    exact mem_autoWire_of_mem_list blocks.length (orphanList blocks conns) conns n hn hP

/-- Claim C6, counterexample: `validate_and_fix_connections` on a
three-block list whose single connection touches only block-1 and block-2
silently appends the sequential connection block-2 → block-3 for the
orphaned block-3 (the claim states orphans are never auto-wired); and the
guardrail holding one action-warn block with an empty connection set — a
block unreachable from any input block — is executed, appears in the trace
with `activated = true`, and decides the evaluation (the claim states such
blocks are excluded from execution). -/
theorem orphans_executed_and_auto_wired :
    (validate_and_fix_connections [inputBlk, containsBlk, roleBlk] [c12]).2
      = [c12,
         { sourceBlockId := "block-2", targetBlockId := "block-3",
           sourceHandle := "output", targetHandle := "input" }]
  ∧ gOrphan.connections = []
  ∧ (evaluate_guardrail dRe dT gOrphan "m" "r").trace.map (fun e => (e.blockId, e.activated))
      = [("w1", true)]
  ∧ (evaluate_guardrail dRe dT gOrphan "m" "r").decision = "warn" :=
  ⟨by decide, rfl, by decide, rfl⟩

/-- Claim C6, witness: the amended orphan behavior at concrete inputs —
the orphaned action-warn guardrail decides `"warn"`, and the orphaned
block-3 of the three-block list gets auto-wired. -/
theorem orphan_policy_amended_witness :
    (evaluate_guardrail dRe dT { blocks := [warnBlk], connections := [] } "m" "r").decision
      = "warn"
  ∧ autoConn 3 ∈ (validate_and_fix_connections [inputBlk, containsBlk, roleBlk] [c12]).2 :=
  ⟨orphan_policy_amended.1 dRe dT "m" "r" warnBlk rfl (by decide) (by decide) (by decide),
   orphan_policy_amended.2 [inputBlk, containsBlk, roleBlk] [c12] 3 (by decide) (by decide)⟩

theorem execBody_regex_error (re : ReSearch) (b : Block) (ctx : Context) (e : String)
    (hty : b.type = "condition")
    (h1 : strContains b.templateId "contains" = false)
    (h2 : strContains b.templateId "role" = false)
    (h3 : strContains b.templateId "regex" = true)
    (h4 : b.config.pattern ≠ "")
    (hre : re b.config.pattern ctx.message = Except.error e) :
    execBody re b ctx = Except.error (false, e) := by
  simp [execBody, hty, h1, h2, h3, h4, hre]

/-- Claim C8: a condition-regex block whose configured pattern makes the
regex engine raise does not abort the evaluation — its trace entry reports
`activated = false` with the error annotation `{"error": e}` as result,
and the walk continues over the remaining blocks with the pending decision
and reason untouched, so the final decision still reflects the blocks that
did succeed. -/
theorem regex_error_non_fatal (re : ReSearch) (t : Nat → Nat) (ctx : Context)
    (b : Block) (rest : List Block) (i : Nat) (d r : String) (e : String)
    (hty : b.type = "condition")
    (h1 : strContains b.templateId "contains" = false)
    (h2 : strContains b.templateId "role" = false)
    (h3 : strContains b.templateId "regex" = true)
    (h4 : b.config.pattern ≠ "")
    (hre : re b.config.pattern ctx.message = Except.error e) :
    evalWalk re t ctx (b :: rest) i d r =
      consTrace ⟨b.id, b.type, Value.vDict [("error", Value.vStr e)], false, t i⟩
        (evalWalk re t ctx rest (i + 1) d r) := by
  have hb : execute_block re b ctx = (false, Value.vDict [("error", Value.vStr e)]) := by
    simp [execute_block, execBody_regex_error re b ctx e hty h1 h2 h3 h4 hre]
  simp [evalWalk, hb, decisionStep, hty]

/-- Claim C8, witness: the invalid pattern `"["` on a concrete
condition-regex block — the trace entry carries the error annotation with
`activated = false` and the walk continues with the pending pair
untouched. -/
theorem regex_error_non_fatal_witness :
    evalWalk badRe dT (mkContext "m" "r") [regexBlk] 0 "allow" "ok" =
      consTrace ⟨"rx", "condition", Value.vDict [("error", Value.vStr "bad pattern")], false, 0⟩
        (evalWalk badRe dT (mkContext "m" "r") [] 1 "allow" "ok") :=
  regex_error_non_fatal badRe dT (mkContext "m" "r") regexBlk [] 0 "allow" "ok" "bad pattern"
    rfl (by decide) (by decide) (by decide) (by decide) rfl

theorem execBody_error_inactive (re : ReSearch) (b : Block) (ctx : Context)
    (a : Bool) (e : String) (h : execBody re b ctx = Except.error (a, e)) : a = false := by
  simp only [execBody] at h
  repeat' split at h
  all_goals first
    | (cases h; rfl)
    | cases h

/-- Claim C10: `execute_block` is a total function of the block and the
context — an exception raised while evaluating the block body (the regex
engine call is the body's raise site) is caught and converted into the
returned result `{"error": e}`, with the `activated` flag keeping the
value it had at the raise point, which is `false` there since the
activation assignment of that branch has not yet happened; when the body
completes normally its pair is returned unchanged.  A single faulty block
therefore cannot abort an evaluation. -/
theorem execute_block_total_catches (re : ReSearch) (b : Block) (ctx : Context) :
    (∀ (a : Bool) (r : Value), execBody re b ctx = Except.ok (a, r) →
       execute_block re b ctx = (a, r))
  ∧ (∀ (a : Bool) (e : String), execBody re b ctx = Except.error (a, e) →
       a = false ∧ execute_block re b ctx = (false, Value.vDict [("error", Value.vStr e)])) := by
  constructor
  · intro a r h
    simp [execute_block, h]
  · intro a e h
    have ha := execBody_error_inactive re b ctx a e h
    subst ha
    exact ⟨rfl, by simp [execute_block, h]⟩

/-- Claim C10, witness: the raising regex oracle on the concrete
condition-regex block — `execute_block` returns normally with the
converted error result and `activated = false`. -/
theorem execute_block_total_catches_witness :
    execute_block badRe regexBlk (mkContext "m" "r")
      = (false, Value.vDict [("error", Value.vStr "bad pattern")]) :=
  ((execute_block_total_catches badRe regexBlk (mkContext "m" "r")).2 false "bad pattern" rfl).2

/-- Claim C9: for a fixed guardrail and fixed request context, any two
evaluation runs produce the same trace — same block order, same activated
flags, same per-block results — and the same decision and reason.  The two
runs may observe different wall-clock durations (the `timer` oracles
differ); the `duration` field is the only part of the trace outside the
model of the claim. -/
theorem evaluation_deterministic (re : ReSearch) (t1 t2 : Nat → Nat)
    (g : Guardrail) (message userRole : String) :
    (evaluate_guardrail re t1 g message userRole).trace.map traceKey
        = (evaluate_guardrail re t2 g message userRole).trace.map traceKey
    ∧ (evaluate_guardrail re t1 g message userRole).decision
        = (evaluate_guardrail re t2 g message userRole).decision
    ∧ (evaluate_guardrail re t1 g message userRole).reason
        = (evaluate_guardrail re t2 g message userRole).reason :=
  evalWalk_timer_inv re t1 t2 (mkContext message userRole) g.blocks 0
    "allow" "Request passed all guardrail checks"

end Railier
